import Mathlib

/-!
Verification development for the IoT ML dashboard pipeline (`app.py`).

The pipeline is shallowly embedded: the inbound MQTT callback `_on_message`,
the session-state drain loop, the decision logic between automatic alerts
and manual override, and the chart snapshot are translated to Lean
definitions over explicit state.  Python floats carry no arithmetic in this
code (they are only parsed, stored, and handed to the classifier), so a
`float` is modelled as either a finite rational or one of the non-finite
sentinels NaN, plus-infinity, minus-infinity.
-/

set_option autoImplicit false

/-- Model of a CPython `float` value as used by this pipeline: the code never
does float arithmetic, only conversion, storage and hand-off, so a value is a
finite rational or one of the non-finite sentinels. -/
inductive PyFloat where
  | finite (q : ℚ)
  | nan
  | inf
  | neginf
  deriving DecidableEq, Repr

/-- A float is finite exactly when it is not NaN and not an infinity. -/
def PyFloat.isFinite : PyFloat → Bool
  | .finite _ => true
  | _ => false

/-- Values produced by Python `json.loads`: numbers (including non-finite
floats, reachable via overflow such as 1e999 or the NaN and Infinity literals
CPython accepts), strings, null, booleans, and containers on which the later
`float(...)` conversion raises. -/
inductive JVal where
  | jnum (x : PyFloat)
  | jstr (s : String)
  | jnull
  | jbool (b : Bool)
  | jother
  deriving DecidableEq, Repr

/-- Outcome of `json.loads` on the raw payload text: the text is not JSON at
all (`loads` raises), is JSON but not an object (so `.get` raises), or is an
object given as its key-value pairs in textual order. -/
inductive Payload where
  | notJson
  | nonObject
  | obj (fields : List (String × JVal))
  deriving DecidableEq, Repr

/-- Python dict lookup `data.get(k)` for a dict built by `json.loads`: with
duplicate keys the later occurrence wins, a missing key gives `None`. -/
def dictGet (fields : List (String × JVal)) (k : String) : Option JVal :=
  (fields.reverse.find? (fun p => p.1 == k)).map (fun p => p.2)

/-- ASCII lowercasing of one character, as `str.lower` does on this input. -/
def toLowerChar (c : Char) : Char :=
  if 'A' ≤ c ∧ c ≤ 'Z' then Char.ofNat (c.toNat + 32) else c

/-- Strip leading and trailing whitespace, as CPython `float(str)` does. -/
def stripWs (cs : List Char) : List Char :=
  ((cs.dropWhile Char.isWhitespace).reverse.dropWhile Char.isWhitespace).reverse

/-- Numeric value of a digit string. -/
def digitsVal (ds : List Char) : Nat :=
  ds.foldl (fun a c => a * 10 + (c.toNat - 48)) 0

/-- Split off a maximal run of leading decimal digits. -/
def spanDigits (cs : List Char) : List Char × List Char :=
  (cs.takeWhile Char.isDigit, cs.dropWhile Char.isDigit)

/-- Rational power of ten. -/
def tenPow (n : Nat) : ℚ := (10 : ℚ) ^ n

/-- Parse the mantissa part of a CPython float literal: digits, optionally
with a decimal point, at least one digit overall. -/
def parseMantissa (cs : List Char) : Option (ℚ × List Char) :=
  let ip := spanDigits cs
  match ip.2 with
  | '.' :: r2 =>
      let fp := spanDigits r2
      if ip.1.isEmpty && fp.1.isEmpty then none
      else some ((digitsVal ip.1 : ℚ) + (digitsVal fp.1 : ℚ) / tenPow fp.1.length, fp.2)
  | r1 =>
      if ip.1.isEmpty then none
      else some ((digitsVal ip.1 : ℚ), r1)

/-- Parse an optional exponent suffix (input already lowercased) and require
that nothing follows it. -/
def applyExp (q : ℚ) (cs : List Char) : Option ℚ :=
  match cs with
  | [] => some q
  | 'e' :: r1 =>
      let sr :=
        match r1 with
        | '+' :: t => (true, t)
        | '-' :: t => (false, t)
        | _ => (true, r1)
      let ds := spanDigits sr.2
      if ds.1.isEmpty || !ds.2.isEmpty then none
      else some (if sr.1 then q * tenPow (digitsVal ds.1) else q / tenPow (digitsVal ds.1))
  | _ => none

/-- Model of CPython `float(str)`: strip whitespace, optional sign, then the
keywords inf, infinity or nan (case-insensitively), or a decimal literal with
optional fraction and exponent.  (Underscore digit separators are omitted;
nothing in the pipeline depends on them.) -/
def parseFloatStr (s : String) : Option PyFloat :=
  let cs := (stripWs s.toList).map toLowerChar
  let sb :=
    match cs with
    | '+' :: t => (false, t)
    | '-' :: t => (true, t)
    | _ => (false, cs)
  if sb.2 = ['i', 'n', 'f'] || sb.2 = ['i', 'n', 'f', 'i', 'n', 'i', 't', 'y'] then
    some (if sb.1 then .neginf else .inf)
  else if sb.2 = ['n', 'a', 'n'] then
    some .nan
  else
    match parseMantissa sb.2 with
    | none => none
    | some qr =>
      match applyExp qr.1 qr.2 with
      | none => none
      | some v => some (.finite (if sb.1 then -v else v))

/-- Model of the CPython conversion `float(x)` applied to the result of
`data.get(key)`: `None` (missing key or JSON null) and containers raise,
numbers pass through, strings are parsed, booleans become 0 or 1. -/
def floatConv : Option JVal → Option PyFloat
  | none => none
  | some (.jnum x) => some x
  | some (.jstr s) => parseFloatStr s
  | some .jnull => none
  | some (.jbool b) => some (.finite (if b then 1 else 0))
  | some .jother => none

/-- A decoded sensor reading: timestamp assigned at receive time plus the two
converted fields, mirroring the dict `_on_message` enqueues. -/
structure SensorReading where
  ts : String
  temp : PyFloat
  hum : PyFloat
  deriving DecidableEq, Repr

/-- The decoding done inside `_on_message` (lines 84-94): `json.loads`, then
`float(data.get("temp"))`, then `float(data.get("hum"))`; any raise along the
way drops the event and yields nothing. -/
def decodePayload (p : Payload) (ts : String) : Option SensorReading :=
  match p with
  | .notJson => none
  | .nonObject => none
  | .obj fields =>
    match floatConv (dictGet fields "temp") with
    | none => none
    | some t =>
      match floatConv (dictGet fields "hum") with
      | none => none
      | some h => some ⟨ts, t, h⟩

/-- An item of `mqtt_queue`: either a system status dict from `_on_connect`
or the worker loop, or a sensor dict from `_on_message`. -/
inductive Item where
  | system (msg : String)
  | sensor (r : SensorReading)
  deriving DecidableEq, Repr

/-- The inbound callback `_on_message`: decode the payload and enqueue the
reading, or return leaving the queue untouched when decoding raises. -/
def on_message (p : Payload) (ts : String) (q : List Item) : List Item :=
  match decodePayload p ts with
  | some r => q ++ [Item.sensor r]
  | none => q

/-- The connect callback `_on_connect`: enqueue a connected status on rc = 0,
a disconnected status otherwise. -/
def on_connect (rc : Nat) (q : List Item) : List Item :=
  if rc = 0 then q ++ [Item.system "connected"] else q ++ [Item.system "disconnected"]

/-- A single `queue.Queue.put`: FIFO append at the back. -/
def putQ (q : List Item) (it : Item) : List Item := q ++ [it]

/-- The classifier handle: `model.predict([[temp, hum]])[0]` either returns a
label or raises, so it is modelled as a function to an optional label. -/
def MLModel := PyFloat → PyFloat → Option String

/-- One row of `st.session_state.logs`, as built at line 201. -/
structure Row where
  ts : String
  temp : PyFloat
  hum : PyFloat
  pred : String
  deriving DecidableEq, Repr

/-- The pipeline-owned session state: the log, the last reading, the manual
override flag, the connection flag, and the payloads put on `publish_queue`
(their topic is always the constant `TOPIC_OUTPUT`). -/
structure St where
  logs : List Row
  last : Option Row
  override : Option String
  mqtt_connected : Bool
  publish_queue : List String
  deriving DecidableEq, Repr

/-- The session state right after initialization (lines 45-52). -/
def initState : St := ⟨[], none, none, false, []⟩

/-- The label assigned at lines 196-199: the predict result, or the sentinel
ERR when predict raises. -/
def classifyLabel (m : MLModel) (temp hum : PyFloat) : String :=
  match m temp hum with
  | some p => p
  | none => "ERR"

/-- One iteration of the drain loop (lines 183-208): a system item only
updates the connection flag; a sensor item is classified, appended to the
log, stored as last reading, and, when no override is active, triggers one
automatic publish — ALERT_ON exactly when the label is Panas (the Hot
label), ALERT_OFF otherwise. -/
def stepItem (m : MLModel) (s : St) : Item → St
  | .system msg => { s with mqtt_connected := msg == "connected" }
  | .sensor r =>
    let pred := classifyLabel m r.temp r.hum
    let row : Row := ⟨r.ts, r.temp, r.hum, pred⟩
    let s1 := { s with logs := s.logs ++ [row], last := some row }
    match s.override with
    | none =>
        { s1 with publish_queue :=
            s1.publish_queue ++ [if pred = "Panas" then "ALERT_ON" else "ALERT_OFF"] }
    | some _ => s1

/-- The full drain loop `while not mqtt_queue.empty()`: process items front
to back until the queue is empty, never blocking on an empty queue.  The
second component is the trace of items processed, in processing order. -/
def drainLoop (m : MLModel) : St → List Item → St × List Item
  | s, [] => (s, [])
  | s, it :: rest =>
    let out := drainLoop m (stepItem m s it) rest
    (out.1, it :: out.2)

/-- The Force ALERT ON button (lines 224-228): set the override and enqueue
exactly one manual ALERT_ON publish. -/
def forceAlertOn (s : St) : St :=
  { s with override := some "ON", publish_queue := s.publish_queue ++ ["ALERT_ON"] }

/-- The Force ALERT OFF button (lines 229-232): set the override and enqueue
exactly one manual ALERT_OFF publish. -/
def forceAlertOff (s : St) : St :=
  { s with override := some "OFF", publish_queue := s.publish_queue ++ ["ALERT_OFF"] }

/-- The Clear Override button (lines 233-235): return to automatic mode,
publishing nothing. -/
def clearOverride (s : St) : St := { s with override := none }

/-- The chart snapshot `df.tail(n)` (line 255): the last `n` rows of the log,
in insertion order; the whole log when it is shorter than `n`. -/
def tailView (n : Nat) (l : List Row) : List Row := l.drop (l.length - n)

/-- Outcome of the script run: a fatal model-load failure (with the error
reported via `st.error`), or a completed run with final state and the trace
of drained items. -/
inductive AppOutcome where
  | fatal (errorReported : Bool)
  | ran (s : St) (trace : List Item)
  deriving DecidableEq

/-- The script's main flow around the model (lines 63-67 and 183-208): if
`load_model` raises, `st.error` reports it and `st.stop` halts the script
before the drain loop; otherwise the drain loop runs to completion. -/
def runApp (load : Option MLModel) (s : St) (q : List Item) : AppOutcome :=
  match load with
  | none => .fatal true
  | some m => .ran (drainLoop m s q).1 (drainLoop m s q).2

/-- Modelled from the spec: the wire encoding `decode_inverse` (§6 inbound
payload format) is produced by the device, not by this repository — a JSON
object with the reading's temperature under key temp and its humidity under
key hum. -/
def encodeReading (r : SensorReading) : Payload :=
  .obj [("temp", .jnum r.temp), ("hum", .jnum r.hum)]

/-- A classifier that always answers Normal, for concrete instantiations. -/
def constModel : MLModel := fun _ _ => some "Normal"

/-- A classifier whose predict call always raises. -/
def errModel : MLModel := fun _ _ => none

/-- A fixed concrete reading. -/
def reading0 : SensorReading := ⟨"t", .finite 0, .finite 0⟩

/-- A fixed concrete log row. -/
def row0 : Row := ⟨"t", .finite 0, .finite 0, "Normal"⟩

/-! ## Helper lemmas -/

theorem stepItem_sensor_logs (m : MLModel) (s : St) (r : SensorReading) :
    (stepItem m s (.sensor r)).logs
      = s.logs ++ [⟨r.ts, r.temp, r.hum, classifyLabel m r.temp r.hum⟩] := by
  cases h : s.override <;> simp [stepItem, h]

theorem stepItem_keeps_override (m : MLModel) (s : St) (it : Item) :
    (stepItem m s it).override = s.override := by
  cases it with
  | system msg => rfl
  | sensor r => cases h : s.override <;> simp [stepItem, h]

theorem stepItem_frozen (m : MLModel) (s : St) (it : Item) (o : String)
    (h : s.override = some o) :
    (stepItem m s it).publish_queue = s.publish_queue := by
  cases it with
  | system msg => rfl
  | sensor r => simp [stepItem, h]

theorem drainLoop_trace (m : MLModel) (q : List Item) (s : St) :
    (drainLoop m s q).2 = q := by
  induction q generalizing s with
  | nil => rfl
  | cons it rest ih => simp [drainLoop, ih]

theorem drain_frozen (m : MLModel) (q : List Item) (s : St) (o : String)
    (h : s.override = some o) :
    (drainLoop m s q).1.publish_queue = s.publish_queue ∧
      (drainLoop m s q).1.override = some o := by
  induction q generalizing s with
  | nil => exact ⟨rfl, h⟩
  | cons it rest ih =>
    have h' : (stepItem m s it).override = some o := by
      rw [stepItem_keeps_override]; exact h
    have := ih (stepItem m s it) h'
    simp only [drainLoop]
    exact ⟨by rw [this.1, stepItem_frozen m s it o h], this.2⟩

theorem foldl_putQ (items q : List Item) :
    items.foldl putQ q = q ++ items := by
  induction items generalizing q with
  | nil => simp
  | cons it rest ih => simp [putQ, ih]

theorem drain_replicate_logs (m : MLModel) (r : SensorReading) (n : Nat) (s : St) :
    ((drainLoop m s (List.replicate n (.sensor r))).1).logs.length
      = s.logs.length + n := by
  induction n generalizing s with
  | zero => rfl
  | succ k ih =>
    simp only [List.replicate_succ, drainLoop]
    rw [ih (stepItem m s (.sensor r)), stepItem_sensor_logs]
    simp
    omega

/-! ## Claim theorems -/

/-- C1 counterexample: the claim that the Event Log never holds more than its
capacity of 200 entries fails on the code — `st.session_state.logs` is
appended to without eviction, so after 201 processed readings the log holds
201 entries. -/
theorem log_capacity_counterexample :
    200 < ((drainLoop constModel initState
        (List.replicate 201 (.sensor reading0))).1).logs.length := by
  have h := drain_replicate_logs constModel reading0 201 initState
  have h0 : initState.logs.length = 0 := rfl
  omega

/-- C1 (amended): the underlying log list is unbounded, but the live-view
snapshot `df.tail(200)` is bounded with strict FIFO eviction: once the log
holds capacity-plus-K entries (the last 200 of which are `lastC`), the
snapshot is exactly those most recently appended 200 entries, in insertion
order. -/
theorem tail_snapshot_bounded (pre lastC : List Row) (h : lastC.length = 200) :
    tailView 200 (pre ++ lastC) = lastC ∧
      (tailView 200 (pre ++ lastC)).length = 200 := by
  have hdrop : (pre ++ lastC).length - 200 = pre.length := by
    simp [List.length_append, h]
  constructor
  · rw [tailView, hdrop, List.drop_left]
  · rw [tailView, hdrop, List.drop_left, h]

/-- Witness for the amended C1 at a concrete input: one extra entry beyond
capacity (K = 1). -/
theorem tail_snapshot_bounded_witness :
    tailView 200 ([row0] ++ List.replicate 200 row0) = List.replicate 200 row0 ∧
      (tailView 200 ([row0] ++ List.replicate 200 row0)).length = 200 :=
  tail_snapshot_bounded [row0] (List.replicate 200 row0) (List.length_replicate 200 row0)

/-- C2: setting an override enqueues exactly one manual publish with the
corresponding payload, and from then on any sequence of drained items (in
particular any classified readings) adds no further auto-publish until the
override is cleared; clearing the override publishes nothing of its own. -/
theorem override_suppresses_auto_publish (m : MLModel) (s : St) (items : List Item) :
    (drainLoop m (forceAlertOn s) items).1.publish_queue
        = s.publish_queue ++ ["ALERT_ON"] ∧
      (drainLoop m (forceAlertOn s) items).1.override = some "ON" ∧
      (drainLoop m (forceAlertOff s) items).1.publish_queue
        = s.publish_queue ++ ["ALERT_OFF"] ∧
      (drainLoop m (forceAlertOff s) items).1.override = some "OFF" ∧
      (clearOverride s).publish_queue = s.publish_queue ∧
      (clearOverride s).override = none := by
  have hOn := drain_frozen m items (forceAlertOn s) "ON" rfl
  have hOff := drain_frozen m items (forceAlertOff s) "OFF" rfl
  exact ⟨hOn.1, hOn.2, hOff.1, hOff.2, rfl, rfl⟩

/-- C3: with no override active, processing one classified reading attempts
exactly one outbound publish — ALERT_ON exactly when the label is Panas (the
Hot label), ALERT_OFF for every other label. -/
theorem auto_mode_publishes_once (m : MLModel) (s : St) (r : SensorReading)
    (h : s.override = none) :
    (stepItem m s (.sensor r)).publish_queue
      = s.publish_queue
          ++ [if classifyLabel m r.temp r.hum = "Panas" then "ALERT_ON" else "ALERT_OFF"] := by
  simp [stepItem, h]

/-- Witness for C3 at a concrete input: the initial state (no override) and
a reading the constant classifier labels Normal. -/
theorem auto_mode_publishes_once_witness :
    (stepItem constModel initState (.sensor ⟨"t", .finite 35, .finite 40⟩)).publish_queue
      = initState.publish_queue
          ++ [if classifyLabel constModel (.finite 35) (.finite 40) = "Panas"
              then "ALERT_ON" else "ALERT_OFF"] :=
  auto_mode_publishes_once constModel initState ⟨"t", .finite 35, .finite 40⟩ rfl

/-- C4: a payload on which decoding raises is dropped inside `_on_message`:
the inbound queue is left exactly as it was, so a tick that drains only the
result of such an event leaves the whole state (log and publish queue
included) unchanged. -/
theorem malformed_payload_dropped (m : MLModel) (s : St) (q : List Item)
    (p : Payload) (ts : String) (h : decodePayload p ts = none) :
    on_message p ts q = q ∧
      drainLoop m s (on_message p ts []) = (s, []) := by
  refine ⟨by simp [on_message, h], ?_⟩
  simp [on_message, h, drainLoop]

/-- Witness for C4 at the two concrete malformed payloads of the claim: the
non-JSON text and a JSON object whose temp field is the non-numeric string
abc. -/
theorem malformed_payload_dropped_witness :
    (on_message .notJson "t" [] = [] ∧
       drainLoop constModel initState (on_message .notJson "t" []) = (initState, [])) ∧
      (on_message (.obj [("temp", .jstr "abc")]) "t" [] = [] ∧
       drainLoop constModel initState
           (on_message (.obj [("temp", .jstr "abc")]) "t" []) = (initState, [])) :=
  ⟨malformed_payload_dropped constModel initState [] .notJson "t" rfl,
   malformed_payload_dropped constModel initState [] (.obj [("temp", .jstr "abc")]) "t"
     (by decide)⟩

/-- C5 counterexample: the claim that non-finite temp or hum values make
decoding fail is false — the payload with temp 1e999 (which `json.loads`
reads as the float infinity) and hum 1 decodes successfully, and its
temperature is not finite. -/
theorem nonfinite_accepted_counterexample :
    decodePayload (.obj [("temp", .jnum .inf), ("hum", .jnum (.finite 1))]) "t"
        = some ⟨"t", .inf, .finite 1⟩ ∧
      PyFloat.isFinite .inf = false := by
  exact ⟨rfl, rfl⟩

/-- C5 (amended): the decoder requires only that `float(...)` succeed on both
fields; it performs no finiteness check, so any float values — non-finite
ones included — are accepted and the event is enqueued rather than dropped. -/
theorem decode_no_finiteness_check (ts : String) (t h : PyFloat) (q : List Item) :
    decodePayload (.obj [("temp", .jnum t), ("hum", .jnum h)]) ts = some ⟨ts, t, h⟩ ∧
      on_message (.obj [("temp", .jnum t), ("hum", .jnum h)]) ts q
        = q ++ [.sensor ⟨ts, t, h⟩] := by
  exact ⟨rfl, rfl⟩

/-- C6: the adapter's puts build the queue in arrival order, the drain
processes exactly that sequence in the same relative order, and a drain of an
empty queue returns immediately without blocking. -/
theorem fifo_drain_order (m : MLModel) (s : St) (items : List Item) :
    items.foldl putQ [] = items ∧
      (drainLoop m s items).2 = items ∧
      drainLoop m s [] = (s, []) := by
  refine ⟨?_, drainLoop_trace m items s, rfl⟩
  rw [foldl_putQ]
  simp

/-- C7: a model-load failure is fatal — the error is reported and the drain
loop never runs, consuming no events — while with any loaded model the run
always completes the drain, processing every queued event (classifier errors
and malformed payloads never halt it). -/
theorem model_load_failure_fatal (s : St) (q : List Item) :
    runApp none s q = .fatal true ∧
      ∀ m : MLModel, runApp (some m) s q = .ran (drainLoop m s q).1 q := by
  refine ⟨rfl, fun m => ?_⟩
  simp [runApp, drainLoop_trace]

/-- C8: decoding inverts the wire encoding: a well-formed reading (both
fields finite, as the payload contract requires) encoded as its JSON payload
and decoded back at the same timestamp yields the original reading.  (The
finiteness hypotheses keep the statement within Python float equality, where
NaN is not equal to itself.) -/
theorem decode_encode_roundtrip (r : SensorReading)
    (h1 : r.temp.isFinite = true) (h2 : r.hum.isFinite = true) :
    decodePayload (encodeReading r) r.ts = some r := by
  cases r
  rfl

/-- Witness for C8 at a concrete finite reading. -/
theorem decode_encode_roundtrip_witness :
    (PyFloat.finite 31).isFinite = true ∧
      (PyFloat.finite 68).isFinite = true ∧
      decodePayload (encodeReading ⟨"t0", .finite 31, .finite 68⟩) "t0"
        = some ⟨"t0", .finite 31, .finite 68⟩ :=
  ⟨rfl, rfl, decode_encode_roundtrip ⟨"t0", .finite 31, .finite 68⟩ rfl rfl⟩

/-- C9: when predict raises on a decoded reading, the event is not dropped —
a row with the sentinel label ERR is appended to the log and recorded as last
reading, and with no override active one ALERT_OFF publish is still
attempted, since ERR is not the Hot label. -/
theorem predict_error_appends_err (m : MLModel) (s : St) (r : SensorReading)
    (h : m r.temp r.hum = none) :
    (stepItem m s (.sensor r)).logs = s.logs ++ [⟨r.ts, r.temp, r.hum, "ERR"⟩] ∧
      (stepItem m s (.sensor r)).last = some ⟨r.ts, r.temp, r.hum, "ERR"⟩ ∧
      (s.override = none →
        (stepItem m s (.sensor r)).publish_queue = s.publish_queue ++ ["ALERT_OFF"]) := by
  have hc : classifyLabel m r.temp r.hum = "ERR" := by simp [classifyLabel, h]
  refine ⟨?_, ?_, ?_⟩
  · rw [stepItem_sensor_logs, hc]
  · cases ho : s.override <;> simp [stepItem, ho, hc]
  · intro ho
    simp [stepItem, ho, hc]

/-- Witness for C9 at a concrete input: the always-raising classifier on the
initial state. -/
theorem predict_error_appends_err_witness :
    (stepItem errModel initState (.sensor ⟨"t", .finite 1, .finite 2⟩)).logs
        = initState.logs ++ [⟨"t", .finite 1, .finite 2, "ERR"⟩] ∧
      (stepItem errModel initState (.sensor ⟨"t", .finite 1, .finite 2⟩)).publish_queue
        = initState.publish_queue ++ ["ALERT_OFF"] :=
  ⟨(predict_error_appends_err errModel initState ⟨"t", .finite 1, .finite 2⟩ rfl).1,
   (predict_error_appends_err errModel initState ⟨"t", .finite 1, .finite 2⟩ rfl).2.2 rfl⟩

/-- C10: a system status item only updates the connection flag: the log, the
last-reading slot, the override state, and the publish queue are all left
unchanged. -/
theorem system_event_frame (m : MLModel) (s : St) (msg : String) :
    (stepItem m s (.system msg)).logs = s.logs ∧
      (stepItem m s (.system msg)).last = s.last ∧
      (stepItem m s (.system msg)).override = s.override ∧
      (stepItem m s (.system msg)).publish_queue = s.publish_queue ∧
      (stepItem m s (.system msg)).mqtt_connected = (msg == "connected") :=
  ⟨rfl, rfl, rfl, rfl, rfl⟩
